import Mathlib

/-!
Shallow embedding of the Smart-University-CMS entity store and its
controller operations (Department/Course/Module/Student/User/Enrollment),
translated from src/courseController.js, src/moduleController.js,
src/Module.js, src/Course.js, src/Enrollment.js and the student/portal
controllers in src/unnamed/part_000.  Mongoose documents become Lean
structures; the per-collection store becomes a `DB` record of lists;
controller handlers become pure functions `DB → … → Result × DB`.
-/

deriving instance DecidableEq for Except

namespace CMS

/-- Department document (departmentSchema in src/Enrollment.js bundle). -/
structure Dept where
  id : Nat
  name : String
  code : String
  isActive : Bool
deriving DecidableEq

/-- Course document (src/Course.js). Dates are modelled as integers
(epoch milliseconds); mongoose Date comparison is numeric. -/
structure Course where
  id : Nat
  name : String
  code : String
  department : Nat
  duration : Nat
  credits : Nat
  fee : ℚ
  startDate : Int
  endDate : Int
  isActive : Bool
deriving DecidableEq

/-- assessmentMethods sub-document of a Module (src/Module.js).
The JS numbers are modelled as rationals. -/
structure AssessmentMethods where
  exam : ℚ
  coursework : ℚ
  practical : ℚ
deriving DecidableEq

/-- Module document (src/Module.js). -/
structure Module where
  id : Nat
  name : String
  code : String
  course : Nat
  department : Nat
  credits : Nat
  semester : Nat
  isCore : Bool
  assessmentMethods : AssessmentMethods
  prerequisites : List Nat
deriving DecidableEq

/-- Student document (studentSchema in src/Enrollment.js bundle). -/
structure Student where
  id : Nat
  name : String
  email : String
  rollNumber : String
  department : Nat
  course : Nat
  year : Nat
  semester : Nat
  status : String
  notes : String
  user : Option Nat
deriving DecidableEq

/-- User document (models/User, seen through its uses in the controllers). -/
structure User where
  id : Nat
  name : String
  email : String
  password : String
  role : String
  isActive : Bool
deriving DecidableEq

/-- Enrollment status enum (src/Enrollment.js line 7). -/
inductive EnrollStatus
  | enrolled
  | dropped
deriving DecidableEq

/-- Enrollment document (src/Enrollment.js). -/
structure Enrollment where
  id : Nat
  user : Nat
  course : Nat
  status : EnrollStatus
deriving DecidableEq

/-- The whole entity store: one list per mongoose collection. -/
structure DB where
  departments : List Dept
  courses : List Course
  modules : List Module
  students : List Student
  users : List User
  enrollments : List Enrollment
deriving DecidableEq

/-- Error taxonomy (spec section 7), mapped from the controllers' error
responses: 404 "not found" -> notFound, "already exists" -> duplicateKey,
pre-save "Course/Department not found" -> missingReference,
"Department does not match the course department" -> referenceMismatch,
"Cannot delete … with associated …" -> hasDependents,
weight/date/password messages -> validationError. -/
inductive Err
  | notFound
  | duplicateKey
  | missingReference
  | referenceMismatch
  | hasDependents
  | validationError
deriving DecidableEq

/-- JS String.prototype.toUpperCase, modelled character-wise (codes in
this repository are ASCII). -/
def jsUpper (s : String) : String := ⟨s.data.map Char.toUpper⟩

/-- JS String.prototype.toLowerCase, modelled character-wise. -/
def jsLower (s : String) : String := ⟨s.data.map Char.toLower⟩

/-! ## Enrollment Manager (src/unnamed/part_000, portal controller) -/

/-- Result of POST /portal/enroll (enrollInCourse). `alreadyEnrolled` is
the caught duplicate-key (11000) branch, reported as a success. -/
inductive EnrollResult
  | enrolled
  | alreadyEnrolled
  | notFound
deriving DecidableEq

/-- enrollInCourse (src/unnamed/part_000 lines 220-244): 404 when the
course id does not resolve; otherwise Enrollment.create with status
'enrolled'; a unique-index violation on (user, course) is caught and
answered as the no-op success "Already enrolled". -/
def enrollInCourse (db : DB) (u c : Nat) : EnrollResult × DB :=
  match db.courses.find? (fun x => x.id = c) with
  | none => (.notFound, db)
  | some _ =>
    if db.enrollments.any (fun e => e.user = u && e.course = c) then
      (.alreadyEnrolled, db)
    else
      (.enrolled, { db with enrollments :=
        db.enrollments ++ [⟨db.enrollments.length, u, c, .enrolled⟩] })

/-- Result of POST /portal/drop (dropFromCourse). -/
inductive DropResult
  | dropped
  | notFound
deriving DecidableEq

/-- dropFromCourse (src/unnamed/part_000 lines 247-261): 404 when no
Enrollment row exists for the pair; otherwise deleteOne on the found row
(hard delete, no status transition). -/
def dropFromCourse (db : DB) (u c : Nat) : DropResult × DB :=
  match db.enrollments.find? (fun e => e.user = u && e.course = c) with
  | none => (.notFound, db)
  | some _ =>
    (.dropped, { db with enrollments :=
      db.enrollments.eraseP (fun e => e.user = u && e.course = c) })

/-- An operation of the enrollment state machine. -/
inductive PortalOp
  | enroll (u c : Nat)
  | drop (u c : Nat)
deriving DecidableEq

/-- Apply one portal operation to the store, keeping only the state. -/
def applyPortalOp (db : DB) : PortalOp → DB
  | .enroll u c => (enrollInCourse db u c).2
  | .drop u c => (dropFromCourse db u c).2

/-- Run a sequence of enroll/drop operations from a given store. -/
def runPortalOps (db : DB) (ops : List PortalOp) : DB :=
  ops.foldl applyPortalOp db

/-! ## Department and Course deletion (src/courseController.js) -/

/-- department.remove(): the pre('remove') hook (src/Enrollment.js bundle,
departmentSchema lines 91-99) first runs Course.deleteMany({department:
this._id}), then the department document itself is removed. -/
def departmentRemove (db : DB) (d : Dept) : DB :=
  { db with
    courses := db.courses.filter (fun c => c.department ≠ d.id),
    departments := db.departments.filter (fun x => x.id ≠ d.id) }

/-- deleteDepartment (src/courseController.js lines 469-503): 404 when the
id does not resolve; then countDocuments({department: _id}) on courses and
a 400 "Cannot delete department with associated courses" guard when the
count is positive; only otherwise department.remove() runs. -/
def deleteDepartment (db : DB) (id : Nat) : Except Err Unit × DB :=
  match db.departments.find? (fun d => d.id = id) with
  | none => (.error .notFound, db)
  | some d =>
    if (db.courses.filter (fun c => c.department = d.id)).length > 0 then
      (.error .hasDependents, db)
    else
      (.ok (), departmentRemove db d)

/-- deleteCourse (src/courseController.js lines 264-298): 404 when the id
does not resolve; then countDocuments({course: _id}) on modules and a 400
"Cannot delete course with associated modules" guard when the count is
positive; only otherwise course.remove() runs (the Course schema has no
pre('remove') hook, so only the course document goes away). -/
def deleteCourse (db : DB) (id : Nat) : Except Err Unit × DB :=
  match db.courses.find? (fun c => c.id = id) with
  | none => (.error .notFound, db)
  | some c =>
    if (db.modules.filter (fun m => m.course = c.id)).length > 0 then
      (.error .hasDependents, db)
    else
      (.ok (), { db with courses := db.courses.filter (fun x => x.id ≠ c.id) })

/-! ## Module creation and update (src/Module.js, src/moduleController.js) -/

/-- moduleSchema.pre('save') (src/Module.js lines 77-100): the referenced
Course must exist, the referenced Department must exist, and the module's
department must equal the course's department, in that order of checks. -/
def modulePreSave (db : DB) (m : Module) : Except Err Unit :=
  match db.courses.find? (fun c => c.id = m.course) with
  | none => .error .missingReference
  | some c =>
    match db.departments.find? (fun d => d.id = m.department) with
    | none => .error .missingReference
    | some _ =>
      if c.department ≠ m.department then .error .referenceMismatch
      else .ok ()

/-- module.save() for a new document: the pre('save') hook runs first,
then the write hits the unique index on code (src/Module.js line 14);
an index violation is the storage-level duplicate-key (E11000). -/
def moduleSave (db : DB) (m : Module) : Except Err Unit × DB :=
  match modulePreSave db m with
  | .error e => (.error e, db)
  | .ok _ =>
    if db.modules.any (fun x => x.code = m.code) then
      (.error .duplicateKey, db)
    else
      (.ok (), { db with modules := db.modules ++ [m] })

/-- The request-body fields of POST /api/modules and PUT /api/modules/:id,
after form parsing: weights are the parseFloat(...)||0 values, semester
and credits the parseInt values, prerequisites already a list of ids. -/
structure ModuleInput where
  newId : Nat
  name : String
  code : String
  course : Nat
  department : Nat
  credits : Nat
  semester : Nat
  isCore : Bool
  examWeight : ℚ
  courseworkWeight : ℚ
  practicalWeight : ℚ
  prerequisites : List Nat
deriving DecidableEq

/-- The module document built by createModule from its input. -/
def ModuleInput.toModule (inp : ModuleInput) : Module :=
  { id := inp.newId
    name := inp.name
    code := jsUpper inp.code
    course := inp.course
    department := inp.department
    credits := inp.credits
    semester := inp.semester
    isCore := inp.isCore
    assessmentMethods :=
      ⟨inp.examWeight, inp.courseworkWeight, inp.practicalWeight⟩
    prerequisites := inp.prerequisites }

/-- createModule (src/moduleController.js lines 188-268): pre-check
findOne({code}) with the RAW submitted code (no case normalisation in the
query); then the weight-sum check |exam+coursework+practical-100| > 0.01
-> 400 "Assessment weights must sum to 100%"; then new Module with
code.toUpperCase() and module.save(). -/
def createModule (db : DB) (inp : ModuleInput) : Except Err Unit × DB :=
  if db.modules.any (fun x => x.code = inp.code) then
    (.error .duplicateKey, db)
  else
    let total := inp.examWeight + inp.courseworkWeight + inp.practicalWeight
    if |total - 100| > 1 / 100 then
      (.error .validationError, db)
    else
      moduleSave db inp.toModule

/-- module.save() for an existing document being updated: the pre('save')
hook runs, then the unique code index is checked against every OTHER
document, then the document is replaced in place. -/
def moduleSaveUpdate (db : DB) (m : Module) : Except Err Unit × DB :=
  match modulePreSave db m with
  | .error e => (.error e, db)
  | .ok _ =>
    if db.modules.any (fun x => x.id ≠ m.id && x.code = m.code) then
      (.error .duplicateKey, db)
    else
      let write := db.modules.map (fun x => if x.id = m.id then m else x)
      (.ok (), { db with modules := write })

/-- updateModule (src/moduleController.js lines 305-397): 404 when the id
does not resolve; pre-check findOne({_id:{ne:id}, code: code.toUpperCase()});
then the same weight-sum check as createModule; then the fields are
assigned (code upper-cased) and module.save() runs. -/
def updateModule (db : DB) (id : Nat) (inp : ModuleInput) :
    Except Err Unit × DB :=
  match db.modules.find? (fun m => m.id = id) with
  | none => (.error .notFound, db)
  | some m0 =>
    if db.modules.any (fun x => x.id ≠ m0.id && x.code = jsUpper inp.code) then
      (.error .duplicateKey, db)
    else
      let total := inp.examWeight + inp.courseworkWeight + inp.practicalWeight
      if |total - 100| > 1 / 100 then
        (.error .validationError, db)
      else
        moduleSaveUpdate db
          { m0 with
            name := inp.name
            code := jsUpper inp.code
            course := inp.course
            department := inp.department
            credits := inp.credits
            semester := inp.semester
            isCore := inp.isCore
            assessmentMethods :=
              ⟨inp.examWeight, inp.courseworkWeight, inp.practicalWeight⟩
            prerequisites := inp.prerequisites }

/-! ## Course creation (src/courseController.js lines 87-144) -/

/-- The request-body fields of POST /api/courses, after form parsing. -/
structure CourseInput where
  newId : Nat
  name : String
  code : String
  department : Nat
  duration : Nat
  credits : Nat
  fee : ℚ
  startDate : Int
  endDate : Int
deriving DecidableEq

/-- The course document built by createCourse from its input. -/
def CourseInput.toCourse (inp : CourseInput) : Course :=
  { id := inp.newId
    name := inp.name
    code := jsUpper inp.code
    department := inp.department
    duration := inp.duration
    credits := inp.credits
    fee := inp.fee
    startDate := inp.startDate
    endDate := inp.endDate
    isActive := true }

/-- course.save() for a new document: the pre('save') hook
(src/Course.js lines 80-91) requires the referenced Department to exist,
then the write hits the unique index on code (src/Course.js line 14).
The schema's endDate validator duplicates the controller's explicit date
check, which always runs first on this path. -/
def courseSave (db : DB) (c : Course) : Except Err Unit × DB :=
  match db.departments.find? (fun d => d.id = c.department) with
  | none => (.error .missingReference, db)
  | some _ =>
    if db.courses.any (fun x => x.code = c.code) then
      (.error .duplicateKey, db)
    else
      (.ok (), { db with courses := db.courses ++ [c] })

/-- createCourse (src/courseController.js lines 87-144): pre-check
findOne({code}) with the RAW submitted code; then the endDate/startDate
check; then new Course with code.toUpperCase() and course.save(). -/
def createCourse (db : DB) (inp : CourseInput) : Except Err Unit × DB :=
  if db.courses.any (fun x => x.code = inp.code) then
    (.error .duplicateKey, db)
  else if inp.endDate ≤ inp.startDate then
    (.error .validationError, db)
  else
    courseSave db inp.toCourse

/-! ## Student update and delete (src/unnamed/part_000, student controller) -/

/-- The request-body fields of the student update form. `year = 0`,
`semester = 0`, `status = ""`, `password = ""`, `resetPassword = ""` and
`enrollmentDate = none` encode the falsy parse results that make the
controller keep the stored value (parseInt(x) || old, x || old). -/
structure StudentUpdateInput where
  name : String
  email : String
  rollNumber : String
  department : Nat
  course : Nat
  year : Nat
  semester : Nat
  enrollmentDate : Option Int
  status : String
  notes : String
  createLogin : Bool
  password : String
  resetPassword : String
  newUserId : Nat
deriving DecidableEq

/-- The reset-password tail of updateStudent (src/unnamed/part_000 lines
162-174): runs only when resetPassword is non-empty and the (possibly
just linked) student has a user; too-short passwords are rejected, and a
dangling user reference is silently ignored. The stored credential is
modelled as the submitted secret (the User pre-save hash is opaque to
this model). -/
def resetPasswordStep (db : DB) (s : Student) (inp : StudentUpdateInput) :
    Except Err Unit × DB :=
  match s.user with
  | none => (.ok (), db)
  | some uid =>
    if inp.resetPassword = "" then (.ok (), db)
    else if inp.resetPassword.length < 6 then (.error .validationError, db)
    else
      match db.users.find? (fun u => u.id = uid) with
      | none => (.ok (), db)
      | some _ =>
        let write := db.users.map (fun x =>
          if x.id = uid then { x with password := inp.resetPassword } else x)
        (.ok (), { db with users := write })

/-- The in-place write of one student document back into the students
collection (student.save() on an existing document). -/
def writeStudent (db : DB) (id : Nat) (s1 : Student) : DB :=
  { db with students := db.students.map (fun x => if x.id = id then s1 else x) }

/-- The base field assignment of updateStudent (src/unnamed/part_000
lines 129-138): every form field overwrites the stored one, except that
falsy year/semester/enrollmentDate/status inputs keep the old value. -/
def applyStudentForm (s : Student) (inp : StudentUpdateInput) : Student :=
  { s with
    name := inp.name
    email := jsLower inp.email
    rollNumber := jsUpper inp.rollNumber
    department := inp.department
    course := inp.course
    year := if inp.year = 0 then s.year else inp.year
    semester := if inp.semester = 0 then s.semester else inp.semester
    status := if inp.status = "" then s.status else inp.status
    notes := inp.notes }

/-- updateStudent (src/unnamed/part_000 lines 110-179): 404 when the id
does not resolve; uniqueness pre-check on email (lower-cased) and
rollNumber (upper-cased) excluding the student itself; then the base
fields are assigned and student.save() persists them; ONLY AFTER that
save does the createLogin branch check for a conflicting User email (and
the password length), so its failures leave the base update in the
store; finally the resetPassword tail runs. -/
def updateStudent (db : DB) (id : Nat) (inp : StudentUpdateInput) :
    Except Err Unit × DB :=
  match db.students.find? (fun s => s.id = id) with
  | none => (.error .notFound, db)
  | some s =>
    if db.students.any (fun x => x.id ≠ s.id &&
        (x.email = jsLower inp.email || x.rollNumber = jsUpper inp.rollNumber)) then
      (.error .duplicateKey, db)
    else
      let s1 : Student := applyStudentForm s inp
      let db1 : DB := writeStudent db id s1
      if inp.createLogin && s.user = none then
        if db1.users.any (fun u => u.email = jsLower inp.email) then
          (.error .duplicateKey, db1)
        else if inp.password.length < 6 then
          (.error .validationError, db1)
        else
          let u : User :=
            ⟨inp.newUserId, inp.name, jsLower inp.email, inp.password,
              "student", true⟩
          let s2 : Student := { s1 with user := some inp.newUserId }
          let db2 : DB := { writeStudent db1 id s2 with users := db1.users ++ [u] }
          resetPasswordStep db2 s2 inp
      else
        resetPasswordStep db1 s1 inp

/-- deleteStudent (src/unnamed/part_000 lines 182-193): 404 when the id
does not resolve; otherwise student.deleteOne() removes just that
document — the Student schema has no delete hook, so no other collection
is touched. -/
def deleteStudent (db : DB) (id : Nat) : Except Err Unit × DB :=
  match db.students.find? (fun s => s.id = id) with
  | none => (.error .notFound, db)
  | some _ =>
    (.ok (), { db with students := db.students.eraseP (fun s => s.id = id) })

/-! ## Catalog Aggregator (src/moduleController.js lines 66-120)

JS objects keyed by id strings are modelled as association lists in
insertion order: assigning to an existing key replaces the value in
place, assigning to a fresh key appends. -/

/-- Replace-in-place-or-append update of an association list, the
semantics of `obj[k] = f(obj[k])` on a JS object. -/
def updA {A : Type} (k : Nat) (f : Option A → A) :
    List (Nat × A) → List (Nat × A)
  | [] => [(k, f none)]
  | (k2, v) :: rest =>
    if k2 = k then (k2, f (some v)) :: rest
    else (k2, v) :: updA k f rest

/-- Key lookup in an association list (`obj[k]` on a JS object). -/
def findA {A : Type} (k : Nat) : List (Nat × A) → Option A
  | [] => none
  | (k2, v) :: rest => if k2 = k then some v else findA k rest

/-- One course bucket of the structured view: course fields plus the
semester-indexed module lists. -/
structure CourseEntry where
  name : String
  code : String
  semesters : List (Nat × List Module)
deriving DecidableEq

/-- One department bucket of the structured view. -/
structure DeptEntry where
  name : String
  code : String
  courses : List (Nat × CourseEntry)
deriving DecidableEq

/-- The whole structured view. -/
abbrev Catalog : Type := List (Nat × DeptEntry)

/-- departments.forEach step: every department gets a (fresh) bucket. -/
def addDept (s : Catalog) (d : Dept) : Catalog :=
  updA d.id (fun _ => ⟨d.name, d.code, []⟩) s

/-- courses.forEach step: resolve the owning department bucket by id and
skip silently if absent; otherwise add a (fresh) course bucket there. -/
def addCourse (s : Catalog) (c : Course) : Catalog :=
  match findA c.department s with
  | none => s
  | some de =>
    let ce : CourseEntry := ⟨c.name, c.code, []⟩
    updA c.department (fun _ => { de with courses := updA c.id (fun _ => ce) de.courses }) s

/-- modules.forEach step: depId is the module's own populated department
if it resolves, else the populated course's department, else null; the
module is skipped silently unless both the department bucket and the
course bucket exist, in which case it is appended to its semester list.
`courses`/`departments` are the fetched collections populate resolves
against. -/
def addModule (courses : List Course) (departments : List Dept)
    (s : Catalog) (m : Module) : Catalog :=
  let popCourse := courses.find? (fun c => c.id = m.course)
  let popDept := departments.find? (fun d => d.id = m.department)
  let depId? : Option Nat :=
    match popDept with
    | some d => some d.id
    | none => popCourse.map (fun c => c.department)
  match depId? with
  | none => s
  | some dep =>
    match findA dep s with
    | none => s
    | some de =>
      match popCourse with
      | none => s
      | some pc =>
        match findA pc.id de.courses with
        | none => s
        | some ce =>
          let sems2 := updA m.semester (fun l => (l.getD []) ++ [m]) ce.semesters
          let ce2 : CourseEntry := { ce with semesters := sems2 }
          let de2 : DeptEntry :=
            { de with courses := updA pc.id (fun _ => ce2) de.courses }
          updA dep (fun _ => de2) s

/-- getStructuredModules' structure-building loop over the three fetched
collections (departments and courses pre-sorted by name, modules by
(semester, name), as the queries order them). -/
def buildStructure (departments : List Dept) (courses : List Course)
    (modules : List Module) : Catalog :=
  let s0 := departments.foldl addDept []
  let s1 := courses.foldl addCourse s0
  modules.foldl (addModule courses departments) s1

/-! ## Concrete store fixtures for witnesses and counterexamples -/

/-- A CS department. -/
def exCS : Dept := ⟨1, "CS", "CS", true⟩

/-- The CS101 course, owned by the CS department. -/
def exCS101 : Course := ⟨10, "CS101", "CS101", 1, 3, 30, 0, 0, 1, true⟩

/-- Module M1 of CS101, semester 1. -/
def exM1 : Module := ⟨100, "M1", "M1C", 10, 1, 5, 1, true, ⟨60, 40, 0⟩, []⟩

/-- Module M2 of CS101, semester 1. -/
def exM2 : Module := ⟨101, "M2", "M2C", 10, 1, 5, 1, true, ⟨60, 40, 0⟩, []⟩

/-- The orphan module: its course id 999 resolves to nothing. -/
def exMorphan : Module := ⟨102, "Morphan", "MOC", 999, 1, 5, 2, true, ⟨60, 40, 0⟩, []⟩

/-- A stored module whose (upper-cased) code is "CS101". -/
def exStoredMod : Module := ⟨100, "M1", "CS101", 10, 1, 5, 1, true, ⟨60, 40, 0⟩, []⟩

/-- A student with no linked login. -/
def exStudent : Student := ⟨1, "Ann", "a@x.com", "R1", 1, 10, 1, 1, "active", "", none⟩

/-- A student whose login is user 5. -/
def exStudentLinked : Student := ⟨1, "Ann", "a@x.com", "R1", 1, 10, 1, 1, "active", "", some 5⟩

/-- An unrelated user holding the email b@x.com. -/
def exUser : User := ⟨5, "Bob", "b@x.com", "secret1", "student", true⟩

/-- Department + course store. -/
def exDB : DB := ⟨[exCS], [exCS101], [], [], [], []⟩

/-- Department-only store. -/
def exDBempty : DB := ⟨[exCS], [], [], [], [], []⟩

/-- Store holding a module with code "CS101". -/
def exDBmods : DB := ⟨[exCS], [exCS101], [exStoredMod], [], [], []⟩

/-- Store with one student and one user. -/
def exDBstud : DB := ⟨[exCS], [exCS101], [], [exStudent], [exUser], []⟩

/-- Store with one linked student and their user. -/
def exDBlinked : DB := ⟨[exCS], [exCS101], [], [exStudentLinked], [exUser], []⟩

/-- A student update that changes the email to b@x.com and asks for a
login to be created; user 5 already owns that email. -/
def exUpdInput : StudentUpdateInput :=
  ⟨"Ann", "b@x.com", "R1", 1, 10, 1, 1, none, "active", "", true, "secret2", "", 6⟩

/-- A module submission with lower-cased code "cs101" and valid weights. -/
def exModInput : ModuleInput := ⟨101, "M1b", "cs101", 10, 1, 5, 1, true, 60, 40, 0, []⟩

/-- A second department. -/
def exPhys : Dept := ⟨2, "Physics", "PHY", true⟩

/-- Store holding both departments and the CS course. -/
def exDB2 : DB := ⟨[exCS, exPhys], [exCS101], [], [], [], []⟩

/-- A module that references course CS101 but department Physics. -/
def exBadMod : Module := ⟨100, "M1", "M1C", 10, 2, 5, 1, true, ⟨60, 40, 0⟩, []⟩

/-- A module submission whose weights sum to 105. -/
def exBadWInput : ModuleInput := ⟨101, "M1b", "NEW1", 10, 1, 5, 1, true, 60, 40, 5, []⟩

/-- A course submission with lower-cased code "cs101" and valid dates. -/
def exCourseInput : CourseInput := ⟨11, "C2", "cs101", 1, 3, 3, 30, 0, 1⟩

/-- A second student holding the email c@x.com. -/
def exStudent2 : Student := ⟨2, "Cara", "c@x.com", "R2", 1, 10, 1, 1, "active", "", none⟩

/-- Store with two students. -/
def exDBstud2 : DB := ⟨[exCS], [exCS101], [], [exStudent, exStudent2], [], []⟩

/-! ## Theorems -/

/-- Shared fact: a filter has positive length exactly when some element
satisfies the predicate. -/
theorem filter_length_pos_iff {α : Type} (p : α → Bool) (l : List α) :
    0 < (l.filter p).length ↔ ∃ a ∈ l, p a := by
  rw [← List.countP_eq_length_filter]
  exact List.countP_pos_iff

/-- C1 counterexample: on the store holding department CS and its course
CS101, deleting the department does NOT succeed — it is rejected with the
HasDependents error ("Cannot delete department with associated courses"),
the store is unchanged and CS101 is still there, refuting the
unconditional-cascade claim. -/
theorem deleteDepartment_not_unconditional :
    (deleteDepartment exDB 1).1 = .error .hasDependents ∧
    (deleteDepartment exDB 1).2 = exDB ∧
    exCS101 ∈ (deleteDepartment exDB 1).2.courses := by decide

/-- C1 (amended): deleting a Department D is blocked with HasDependents
exactly when at least one Course references D (leaving the store
unchanged); when zero Courses reference D the delete succeeds and runs
the pre-remove cascade, which removes every (then vacuously absent)
Course with department = D together with D itself. -/
theorem deleteDepartment_guarded (db : DB) (id : Nat) (d : Dept)
    (hd : db.departments.find? (fun x => x.id = id) = some d) :
    ((deleteDepartment db id).1 = .error .hasDependents ↔
        ∃ c ∈ db.courses, c.department = d.id) ∧
    ((deleteDepartment db id).1 = .error .hasDependents →
        (deleteDepartment db id).2 = db) ∧
    ((∀ c ∈ db.courses, c.department ≠ d.id) →
        deleteDepartment db id = (.ok (), departmentRemove db d)) := by
  have he : deleteDepartment db id =
      if 0 < (db.courses.filter (fun c => c.department = d.id)).length then
        (.error .hasDependents, db)
      else (.ok (), departmentRemove db d) := by
    unfold deleteDepartment
    rw [hd]
  rw [he]
  by_cases h : ∃ c ∈ db.courses, c.department = d.id
  · have hl : 0 < (db.courses.filter (fun c => c.department = d.id)).length := by
      rw [filter_length_pos_iff]
      simpa using h
    rw [if_pos hl]
    refine ⟨⟨fun _ => h, fun _ => rfl⟩, fun _ => rfl, fun hall => ?_⟩
    obtain ⟨c, hc, hcd⟩ := h
    exact absurd hcd (hall c hc)
  · have hl : ¬ 0 < (db.courses.filter (fun c => c.department = d.id)).length := by
      rw [filter_length_pos_iff]
      simpa using h
    rw [if_neg hl]
    refine ⟨⟨fun habs => by simp at habs, fun hex => absurd hex h⟩,
      fun habs => by simp at habs, fun _ => rfl⟩

/-- Witness for C1 (amended): on the department-only store, the delete is
not blocked and runs the cascade remove. -/
theorem deleteDepartment_guarded_witness :
    deleteDepartment exDBempty 1 = (.ok (), departmentRemove exDBempty exCS) :=
  (deleteDepartment_guarded exDBempty 1 exCS (by decide)).2.2 (by decide)

/-- C4: deleting a Course fails with HasDependents exactly when at least
one Module references it (leaving the store unchanged); with zero
referencing Modules it succeeds and removes just that course. -/
theorem deleteCourse_guarded (db : DB) (id : Nat) (c : Course)
    (hc : db.courses.find? (fun x => x.id = id) = some c) :
    ((deleteCourse db id).1 = .error .hasDependents ↔
        ∃ m ∈ db.modules, m.course = c.id) ∧
    ((deleteCourse db id).1 = .error .hasDependents →
        (deleteCourse db id).2 = db) ∧
    ((∀ m ∈ db.modules, m.course ≠ c.id) →
        deleteCourse db id =
          (.ok (), { db with courses := db.courses.filter (fun x => x.id ≠ c.id) })) := by
  have he : deleteCourse db id =
      if 0 < (db.modules.filter (fun m => m.course = c.id)).length then
        (.error .hasDependents, db)
      else (.ok (), { db with courses := db.courses.filter (fun x => x.id ≠ c.id) }) := by
    unfold deleteCourse
    rw [hc]
  rw [he]
  by_cases h : ∃ m ∈ db.modules, m.course = c.id
  · have hl : 0 < (db.modules.filter (fun m => m.course = c.id)).length := by
      rw [filter_length_pos_iff]
      simpa using h
    rw [if_pos hl]
    refine ⟨⟨fun _ => h, fun _ => rfl⟩, fun _ => rfl, fun hall => ?_⟩
    obtain ⟨m, hm, hmc⟩ := h
    exact absurd hmc (hall m hm)
  · have hl : ¬ 0 < (db.modules.filter (fun m => m.course = c.id)).length := by
      rw [filter_length_pos_iff]
      simpa using h
    rw [if_neg hl]
    refine ⟨⟨fun habs => by simp at habs, fun hex => absurd hex h⟩,
      fun habs => by simp at habs, fun _ => rfl⟩

/-- Witness for C4: with one module attached, deleting CS101 is blocked;
the iff instantiates at the store that has the module. -/
theorem deleteCourse_guarded_witness :
    (deleteCourse exDBmods 10).1 = .error .hasDependents ∧
    (deleteCourse exDBmods 10).2 = exDBmods :=
  have h := deleteCourse_guarded exDBmods 10 exCS101 (by decide)
  have h1 : (deleteCourse exDBmods 10).1 = .error .hasDependents :=
    h.1.mpr ⟨exStoredMod, by decide, by decide⟩
  ⟨h1, h.2.1 h1⟩

/-- C10: deleting a Student touches only the students collection — the
users, departments, courses, modules and enrollments collections are all
returned unchanged — and on success exactly the found student document is
erased. -/
theorem deleteStudent_frame (db : DB) (id : Nat) :
    (deleteStudent db id).2.users = db.users ∧
    (deleteStudent db id).2.departments = db.departments ∧
    (deleteStudent db id).2.courses = db.courses ∧
    (deleteStudent db id).2.modules = db.modules ∧
    (deleteStudent db id).2.enrollments = db.enrollments ∧
    ((deleteStudent db id).1 = .ok () →
      (deleteStudent db id).2.students = db.students.eraseP (fun s => s.id = id)) := by
  unfold deleteStudent
  cases h : db.students.find? (fun s => s.id = id) <;> simp

/-- Witness for C10: deleting the linked student leaves user 5 (and the
whole users collection) in place while the student row goes away. -/
theorem deleteStudent_frame_witness :
    (deleteStudent exDBlinked 1).2.users = exDBlinked.users ∧
    (deleteStudent exDBlinked 1).2.students =
      exDBlinked.students.eraseP (fun s => s.id = 1) :=
  ⟨(deleteStudent_frame exDBlinked 1).1,
    (deleteStudent_frame exDBlinked 1).2.2.2.2.2 (by decide)⟩

/-- C3: when the referenced Course and Department both exist, a Module
whose department differs from its course's department is rejected by the
pre-save hook with ReferenceMismatch and is not persisted by save; when
the departments agree the reference check passes. -/
theorem module_reference_check (db : DB) (m : Module) (c : Course)
    (hc : db.courses.find? (fun x => x.id = m.course) = some c)
    (hd : (db.departments.find? (fun d => d.id = m.department)).isSome) :
    (c.department ≠ m.department →
       modulePreSave db m = .error .referenceMismatch ∧
       moduleSave db m = (.error .referenceMismatch, db)) ∧
    (c.department = m.department → modulePreSave db m = .ok ()) := by
  obtain ⟨d, hdd⟩ := Option.isSome_iff_exists.mp hd
  have hp : modulePreSave db m =
      if c.department ≠ m.department then .error .referenceMismatch
      else .ok () := by
    unfold modulePreSave
    rw [hc, hdd]
  constructor
  · intro hne
    have h1 : modulePreSave db m = .error .referenceMismatch := by
      rw [hp, if_pos hne]
    refine ⟨h1, ?_⟩
    unfold moduleSave
    rw [h1]
  · intro heq
    rw [hp, if_neg (fun hne => hne heq)]

/-- Witness for C3: with CS and Physics both present, the module that
pairs course CS101 with department Physics is rejected, while M1 (same
departments) passes the check. -/
theorem module_reference_check_witness :
    modulePreSave exDB2 exBadMod = .error .referenceMismatch ∧
    modulePreSave exDB2 exM1 = .ok () :=
  ⟨((module_reference_check exDB2 exBadMod exCS101 (by decide) (by decide)).1
      (by decide)).1,
   (module_reference_check exDB2 exM1 exCS101 (by decide) (by decide)).2
      (by decide)⟩

/-- Shared fact: when the course id resolves, enrollInCourse is the
already-enrolled test on the (user, course) pair. -/
theorem enrollInCourse_eq_of_found (db : DB) (u c : Nat) (x : Course)
    (hx : db.courses.find? (fun y => y.id = c) = some x) :
    enrollInCourse db u c =
      if db.enrollments.any (fun e => e.user = u && e.course = c) then
        (.alreadyEnrolled, db)
      else
        (.enrolled, { db with enrollments :=
          db.enrollments ++ [⟨db.enrollments.length, u, c, .enrolled⟩] }) := by
  unfold enrollInCourse
  rw [hx]

/-- C2: enrolling twice in an existing course with no drop in between:
the second call answers the no-op success "already enrolled", changes
nothing, and exactly one enrollment row for the pair remains. -/
theorem enroll_twice_noop (db : DB) (u c : Nat)
    (hc : (db.courses.find? (fun x => x.id = c)).isSome)
    (hcount : db.enrollments.countP (fun e => e.user = u && e.course = c) ≤ 1) :
    (enrollInCourse (enrollInCourse db u c).2 u c).1 = .alreadyEnrolled ∧
    (enrollInCourse (enrollInCourse db u c).2 u c).2 = (enrollInCourse db u c).2 ∧
    (enrollInCourse (enrollInCourse db u c).2 u c).2.enrollments.countP
      (fun e => e.user = u && e.course = c) = 1 := by
  obtain ⟨x, hx⟩ := Option.isSome_iff_exists.mp hc
  have he1 := enrollInCourse_eq_of_found db u c x hx
  by_cases hb : db.enrollments.any (fun e => e.user = u && e.course = c) = true
  · have h1 : enrollInCourse db u c = (.alreadyEnrolled, db) := by
      rw [he1, if_pos hb]
    have hpos : 0 < db.enrollments.countP (fun e => e.user = u && e.course = c) :=
      List.countP_pos_iff.mpr (List.any_eq_true.mp hb)
    rw [h1]
    dsimp only
    rw [h1]
    exact ⟨rfl, rfl, Nat.le_antisymm hcount hpos⟩
  · have h1 : enrollInCourse db u c =
        (.enrolled, { db with enrollments :=
          db.enrollments ++ [⟨db.enrollments.length, u, c, .enrolled⟩] }) := by
      rw [he1, if_neg hb]
    have hzero : db.enrollments.countP (fun e => e.user = u && e.course = c) = 0 := by
      rw [List.countP_eq_zero]
      intro a ha hpa
      exact hb (List.any_eq_true.mpr ⟨a, ha, hpa⟩)
    rw [h1]
    dsimp only
    have hx2 : (({ db with enrollments :=
        db.enrollments ++ [⟨db.enrollments.length, u, c, .enrolled⟩] } : DB).courses.find?
          (fun y => y.id = c)) = some x := hx
    have he2 := enrollInCourse_eq_of_found _ u c x hx2
    have hb2 : (({ db with enrollments :=
        db.enrollments ++ [⟨db.enrollments.length, u, c, .enrolled⟩] } : DB).enrollments.any
          (fun e => e.user = u && e.course = c)) = true := by
      refine List.any_eq_true.mpr ⟨⟨db.enrollments.length, u, c, .enrolled⟩, ?_, by simp⟩
      simp
    have h2 := he2
    rw [if_pos hb2] at h2
    rw [h2]
    refine ⟨rfl, rfl, ?_⟩
    dsimp only
    simp [List.countP_append, hzero, List.countP_cons]

/-- Witness for C2: user 7 enrolling twice in course 10 of the example
store ends with the no-op answer and a single row. -/
theorem enroll_twice_noop_witness :
    (enrollInCourse (enrollInCourse exDB 7 10).2 7 10).1 = .alreadyEnrolled ∧
    (enrollInCourse (enrollInCourse exDB 7 10).2 7 10).2.enrollments.countP
      (fun e => e.user = 7 && e.course = 10) = 1 :=
  ⟨(enroll_twice_noop exDB 7 10 (by decide) (by decide)).1,
   (enroll_twice_noop exDB 7 10 (by decide) (by decide)).2.2⟩

/-- Shared step fact: one enroll or drop keeps the all-rows-enrolled
invariant: enroll only ever appends a row with status 'enrolled', drop
only ever deletes a row. -/
theorem applyPortalOp_enrolled (d : DB) (op : PortalOp)
    (hd : ∀ e ∈ d.enrollments, e.status = .enrolled) :
    ∀ e ∈ (applyPortalOp d op).enrollments, e.status = .enrolled := by
  cases op with
  | enroll u c =>
    intro e he
    dsimp only [applyPortalOp] at he
    cases hfind : d.courses.find? (fun x => x.id = c) with
    | none =>
      rw [show enrollInCourse d u c = (.notFound, d) from by
        unfold enrollInCourse; rw [hfind]] at he
      exact hd e he
    | some x =>
      rw [enrollInCourse_eq_of_found d u c x hfind] at he
      by_cases hb : d.enrollments.any (fun e2 => e2.user = u && e2.course = c) = true
      · rw [if_pos hb] at he
        exact hd e he
      · rw [if_neg hb] at he
        dsimp only at he
        rcases List.mem_append.mp he with h | h
        · exact hd e h
        · simp only [List.mem_singleton] at h
          subst h
          rfl
  | drop u c =>
    intro e he
    dsimp only [applyPortalOp] at he
    cases hfind : d.enrollments.find? (fun e2 => e2.user = u && e2.course = c) with
    | none =>
      rw [show dropFromCourse d u c = (.notFound, d) from by
        unfold dropFromCourse; rw [hfind]] at he
      exact hd e he
    | some y =>
      rw [show dropFromCourse d u c = (.dropped, { d with
          enrollments := d.enrollments.eraseP (fun e2 => e2.user = u && e2.course = c) }) from by
        unfold dropFromCourse; rw [hfind]] at he
      dsimp only at he
      exact hd e (List.eraseP_subset _ he)

/-- C8: from a store with no enrollment rows, every store reachable by a
sequence of enroll and drop operations holds only rows with status
'enrolled' — the 'dropped' value is never persisted, because drop deletes
the row instead of transitioning it. -/
theorem dropped_status_unreachable (ops : List PortalOp) (db : DB)
    (h0 : db.enrollments = []) :
    ∀ e ∈ (runPortalOps db ops).enrollments, e.status = .enrolled := by
  have key : ∀ (l : List PortalOp) (d : DB),
      (∀ e ∈ d.enrollments, e.status = .enrolled) →
      ∀ e ∈ (runPortalOps d l).enrollments, e.status = .enrolled := by
    intro l
    induction l with
    | nil =>
      intro d hd
      simpa [runPortalOps] using hd
    | cons op rest ih =>
      intro d hd
      have hstep := applyPortalOp_enrolled d op hd
      simpa [runPortalOps, List.foldl_cons] using ih (applyPortalOp d op) hstep
  refine key ops db ?_
  rw [h0]
  intro e he
  cases he

/-- Witness for C8: the single row left by one enroll on the empty
example store has status 'enrolled'. -/
theorem dropped_status_unreachable_witness :
    (⟨0, 7, 10, EnrollStatus.enrolled⟩ : Enrollment).status = .enrolled :=
  dropped_status_unreachable [.enroll 7 10] exDB (by decide)
    ⟨0, 7, 10, EnrollStatus.enrolled⟩ (by decide)

/-- C5: on the departments [CS], courses [CS101] and modules
[M1, M2, Morphan] the structured view maps CS → CS101 → semester 1 →
[M1, M2] in input order and Morphan appears nowhere; in general a course
whose department id has no bucket is skipped, and a module is skipped
when it resolves no department at all, when its department bucket is
missing, when its course does not resolve, or when its course bucket is
missing. -/
theorem structured_modules_example_and_skip :
    (buildStructure [exCS] [exCS101] [exM1, exM2, exMorphan] =
      [(1, ⟨"CS", "CS", [(10, ⟨"CS101", "CS101", [(1, [exM1, exM2])]⟩)]⟩)]) ∧
    (∀ p ∈ buildStructure [exCS] [exCS101] [exM1, exM2, exMorphan],
      ∀ q ∈ p.2.courses, ∀ r ∈ q.2.semesters, exMorphan ∉ r.2) ∧
    (∀ (s : Catalog) (c : Course),
      findA c.department s = none → addCourse s c = s) ∧
    (∀ (cs : List Course) (ds : List Dept) (s : Catalog) (m : Module),
      ds.find? (fun d2 => d2.id = m.department) = none →
      cs.find? (fun c => c.id = m.course) = none →
      addModule cs ds s m = s) ∧
    (∀ (cs : List Course) (ds : List Dept) (s : Catalog) (m : Module) (d : Dept),
      ds.find? (fun d2 => d2.id = m.department) = some d →
      findA d.id s = none →
      addModule cs ds s m = s) ∧
    (∀ (cs : List Course) (ds : List Dept) (s : Catalog) (m : Module)
        (d : Dept) (de : DeptEntry),
      ds.find? (fun d2 => d2.id = m.department) = some d →
      findA d.id s = some de →
      cs.find? (fun c => c.id = m.course) = none →
      addModule cs ds s m = s) ∧
    (∀ (cs : List Course) (ds : List Dept) (s : Catalog) (m : Module)
        (d : Dept) (de : DeptEntry) (pc : Course),
      ds.find? (fun d2 => d2.id = m.department) = some d →
      findA d.id s = some de →
      cs.find? (fun c => c.id = m.course) = some pc →
      findA pc.id de.courses = none →
      addModule cs ds s m = s) := by
  refine ⟨by decide, by decide, ?_, ?_, ?_, ?_, ?_⟩
  · intro s c hf
    unfold addCourse
    rw [hf]
  · intro cs ds s m hd hc
    simp [addModule, hd, hc]
  · intro cs ds s m d hd hs
    simp [addModule, hd, hs]
  · intro cs ds s m d de hd hs hc
    simp [addModule, hd, hs, hc]
  · intro cs ds s m d de pc hd hs hc hb
    simp [addModule, hd, hs, hc, hb]

/-- Witness for C5's general skip clauses: the orphan module is dropped
from the two-level structure built from CS and CS101 alone. -/
theorem structured_modules_skip_witness :
    addModule [exCS101] [exCS] (buildStructure [exCS] [exCS101] []) exMorphan =
      buildStructure [exCS] [exCS101] [] :=
  structured_modules_example_and_skip.2.2.2.2.2.1 [exCS101] [exCS]
    (buildStructure [exCS] [exCS101] []) exMorphan exCS
    ⟨"CS", "CS", [(10, ⟨"CS101", "CS101", []⟩)]⟩
    (by decide) (by decide) (by decide)

/-- Shared fact: the module pre-save hook never produces the
weight-validation error. -/
theorem modulePreSave_no_validation (db : DB) (m : Module) :
    modulePreSave db m ≠ .error .validationError := by
  unfold modulePreSave
  cases db.courses.find? (fun c => c.id = m.course) with
  | none => simp
  | some c =>
    cases db.departments.find? (fun d => d.id = m.department) with
    | none => simp
    | some d =>
      dsimp only
      split <;> simp

/-- Shared fact: saving a new module never produces the weight-validation
error (its failures are reference or duplicate-key ones). -/
theorem moduleSave_no_validation (db : DB) (m : Module) :
    (moduleSave db m).1 ≠ .error .validationError := by
  unfold moduleSave
  cases hp : modulePreSave db m with
  | error e =>
    dsimp only
    intro h
    apply modulePreSave_no_validation db m
    rw [hp]
    exact congrArg Except.error (Except.error.inj h)
  | ok v =>
    dsimp only
    split <;> simp

/-- Shared fact: saving an updated module never produces the
weight-validation error. -/
theorem moduleSaveUpdate_no_validation (db : DB) (m : Module) :
    (moduleSaveUpdate db m).1 ≠ .error .validationError := by
  unfold moduleSaveUpdate
  cases hp : modulePreSave db m with
  | error e =>
    dsimp only
    intro h
    apply modulePreSave_no_validation db m
    rw [hp]
    exact congrArg Except.error (Except.error.inj h)
  | ok v =>
    dsimp only
    split <;> simp

/-- C6: for both createModule and updateModule, a weight sum further than
0.01 from 100 makes the operation fail with ValidationError and write
nothing (once the duplicate-code pre-check passes, and for update once
the module resolves); a sum within 0.01 of 100 passes the weight check —
neither operation can then answer ValidationError. -/
theorem assessment_weight_guard (db : DB) (inp : ModuleInput) (id : Nat) :
    (1 / 100 < |inp.examWeight + inp.courseworkWeight + inp.practicalWeight - 100| →
      ((∀ x ∈ db.modules, x.code ≠ inp.code) →
        createModule db inp = (.error .validationError, db)) ∧
      (∀ m0, db.modules.find? (fun m => m.id = id) = some m0 →
        (∀ x ∈ db.modules, ¬(x.id ≠ m0.id ∧ x.code = jsUpper inp.code)) →
        updateModule db id inp = (.error .validationError, db))) ∧
    (|inp.examWeight + inp.courseworkWeight + inp.practicalWeight - 100| ≤ 1 / 100 →
      (createModule db inp).1 ≠ .error .validationError ∧
      (updateModule db id inp).1 ≠ .error .validationError) := by
  constructor
  · intro hgt
    constructor
    · intro hall
      have hany : db.modules.any (fun x => x.code = inp.code) = false := by
        simp only [List.any_eq_false, decide_eq_true_eq]
        exact hall
      unfold createModule
      rw [hany]
      dsimp only
      rw [if_pos hgt]
      exact rfl
    · intro m0 hm0 hall
      have hany : db.modules.any
          (fun x => x.id ≠ m0.id && x.code = jsUpper inp.code) = false := by
        simp only [List.any_eq_false]
        intro x hx
        simpa using hall x hx
      unfold updateModule
      rw [hm0]
      try dsimp only
      rw [hany]
      try dsimp only
      rw [if_pos hgt]
      exact rfl
  · intro hle
    have hnot : ¬ (1 / 100 <
        |inp.examWeight + inp.courseworkWeight + inp.practicalWeight - 100|) :=
      not_lt.mpr hle
    constructor
    · unfold createModule
      split
      · simp
      · try dsimp only
        rw [if_neg hnot]
        exact moduleSave_no_validation db inp.toModule
    · unfold updateModule
      split
      · simp
      · split
        · simp
        · try dsimp only
          rw [if_neg hnot]
          exact moduleSaveUpdate_no_validation db _

/-- Witness for C6: the 60/40/5 submission is rejected with
ValidationError and writes nothing, while the 60/40/0 submission passes
the weight check. -/
theorem assessment_weight_guard_witness :
    createModule exDB exBadWInput = (.error .validationError, exDB) ∧
    (createModule exDB exModInput).1 ≠ .error .validationError :=
  ⟨((assessment_weight_guard exDB exBadWInput 0).1
      (by norm_num [exBadWInput])).1 (by decide),
   ((assessment_weight_guard exDB exModInput 0).2
      (by norm_num [exModInput])).1⟩

/-- C7: code uniqueness is case-insensitive by construction: a module
submission whose upper-cased code equals a stored module code is rejected
with the (storage-level, unique-index) duplicate-key error and nothing is
written, given valid weights and references — and likewise a course
submission whose upper-cased code equals a stored course code, given a
valid date range and department. -/
theorem duplicate_code_case_insensitive (db : DB) (minp : ModuleInput)
    (cinp : CourseInput) :
    ((∃ x ∈ db.modules, x.code = jsUpper minp.code) →
      |minp.examWeight + minp.courseworkWeight + minp.practicalWeight - 100| ≤ 1 / 100 →
      (∀ c0, db.courses.find? (fun c => c.id = minp.course) = some c0 →
        c0.department = minp.department) →
      (db.courses.find? (fun c => c.id = minp.course)).isSome →
      (db.departments.find? (fun d => d.id = minp.department)).isSome →
      createModule db minp = (.error .duplicateKey, db)) ∧
    ((∃ x ∈ db.courses, x.code = jsUpper cinp.code) →
      cinp.startDate < cinp.endDate →
      (db.departments.find? (fun d => d.id = cinp.department)).isSome →
      createCourse db cinp = (.error .duplicateKey, db)) := by
  constructor
  · intro hdup hw hmatch hcs hds
    have hidx : db.modules.any (fun x => x.code = jsUpper minp.code) = true := by
      obtain ⟨x, hxl, hxc⟩ := hdup
      exact List.any_eq_true.mpr ⟨x, hxl, by simp [hxc]⟩
    have hnot : ¬ (1 / 100 <
        |minp.examWeight + minp.courseworkWeight + minp.practicalWeight - 100|) :=
      not_lt.mpr hw
    unfold createModule
    by_cases hpre : db.modules.any (fun x => x.code = minp.code) = true
    · rw [hpre]
      exact rfl
    · rw [Bool.eq_false_iff.mpr hpre]
      try dsimp only
      rw [if_neg hnot]
      obtain ⟨c0, hc0⟩ := Option.isSome_iff_exists.mp hcs
      obtain ⟨d0, hd0⟩ := Option.isSome_iff_exists.mp hds
      have hps : modulePreSave db minp.toModule = .ok () := by
        unfold modulePreSave
        have hcc : db.courses.find?
            (fun c => c.id = minp.toModule.course) = some c0 := hc0
        have hdd : db.departments.find?
            (fun d => d.id = minp.toModule.department) = some d0 := hd0
        rw [hcc, hdd]
        dsimp only
        rw [if_neg (fun hne => hne (hmatch c0 hc0))]
      unfold moduleSave
      rw [hps]
      try dsimp only
      have hthis : db.modules.any (fun x => x.code = minp.toModule.code) = true := hidx
      rw [hthis]
      exact rfl
  · intro hdup hdate hds
    have hidx : db.courses.any (fun x => x.code = jsUpper cinp.code) = true := by
      obtain ⟨x, hxl, hxc⟩ := hdup
      exact List.any_eq_true.mpr ⟨x, hxl, by simp [hxc]⟩
    unfold createCourse
    by_cases hpre : db.courses.any (fun x => x.code = cinp.code) = true
    · rw [hpre]
      exact rfl
    · rw [Bool.eq_false_iff.mpr hpre]
      try dsimp only
      rw [if_neg (not_le.mpr hdate)]
      obtain ⟨d0, hd0⟩ := Option.isSome_iff_exists.mp hds
      unfold courseSave
      have hdd : db.departments.find?
          (fun d => d.id = cinp.toCourse.department) = some d0 := hd0
      rw [hdd]
      try dsimp only
      have hthis : db.courses.any (fun x => x.code = cinp.toCourse.code) = true := hidx
      rw [hthis]
      exact rfl

/-- Witness for C7: with "CS101" stored, submitting module code "cs101"
(and course code "cs101") is rejected as a duplicate, leaving the store
unchanged. -/
theorem duplicate_code_case_insensitive_witness :
    createModule exDBmods exModInput = (.error .duplicateKey, exDBmods) ∧
    createCourse exDBmods exCourseInput = (.error .duplicateKey, exDBmods) :=
  ⟨(duplicate_code_case_insensitive exDBmods exModInput exCourseInput).1
      ⟨exStoredMod, by decide, by decide⟩ (by norm_num [exModInput])
      (by intro c0 h; cases Option.some.inj h; rfl)
      (by decide) (by decide),
   (duplicate_code_case_insensitive exDBmods exModInput exCourseInput).2
      ⟨exCS101, by decide, by decide⟩ (by decide) (by decide)⟩

/-- C9 counterexample: updating student 1's email to b@x.com with a login
requested returns the DuplicateKey error (user 5 already owns b@x.com),
yet the stored student already carries the new email: the update was
partially applied before the error, refuting the claim. -/
theorem updateStudent_partial_apply_counterexample :
    (updateStudent exDBstud 1 exUpdInput).1 = .error .duplicateKey ∧
    ((updateStudent exDBstud 1 exUpdInput).2.students.find?
        (fun s => s.id = 1)).map Student.email = some "b@x.com" ∧
    (exDBstud.students.find? (fun s => s.id = 1)).map Student.email =
      some "a@x.com" ∧
    (updateStudent exDBstud 1 exUpdInput).2 ≠ exDBstud := by decide

/-- C9 (amended): a DuplicateKey from the student email/rollNumber
pre-check leaves the store unchanged, but a DuplicateKey from a
conflicting User email during login creation is returned only after the
base student update has been saved: the stored student carries the new
field values (and no login is created). -/
theorem updateStudent_duplicate_outcomes (db : DB) (id : Nat)
    (inp : StudentUpdateInput) (s : Student)
    (hs : db.students.find? (fun x => x.id = id) = some s) :
    ((∃ x ∈ db.students, x.id ≠ s.id ∧
        (x.email = jsLower inp.email ∨ x.rollNumber = jsUpper inp.rollNumber)) →
      updateStudent db id inp = (.error .duplicateKey, db)) ∧
    ((∀ x ∈ db.students, ¬(x.id ≠ s.id ∧
        (x.email = jsLower inp.email ∨ x.rollNumber = jsUpper inp.rollNumber))) →
      inp.createLogin = true → s.user = none →
      (∃ u ∈ db.users, u.email = jsLower inp.email) →
      updateStudent db id inp = (.error .duplicateKey,
        writeStudent db id (applyStudentForm s inp))) := by
  constructor
  · intro hconf
    have hany : db.students.any (fun x => x.id ≠ s.id &&
        (x.email = jsLower inp.email || x.rollNumber = jsUpper inp.rollNumber)) = true := by
      obtain ⟨x, hxl, hxne, hxor⟩ := hconf
      refine List.any_eq_true.mpr ⟨x, hxl, ?_⟩
      cases hxor with
      | inl h => simp [hxne, h]
      | inr h => simp [hxne, h]
    unfold updateStudent
    rw [hs]
    try dsimp only
    rw [hany]
    exact rfl
  · intro hall hlogin huser hconf
    have hany : db.students.any (fun x => x.id ≠ s.id &&
        (x.email = jsLower inp.email || x.rollNumber = jsUpper inp.rollNumber)) = false := by
      simp only [List.any_eq_false]
      intro x hx
      simpa using hall x hx
    have huany : (writeStudent db id (applyStudentForm s inp)).users.any
        (fun u => u.email = jsLower inp.email) = true := by
      obtain ⟨u, hul, huc⟩ := hconf
      exact List.any_eq_true.mpr ⟨u, hul, by simp [huc]⟩
    unfold updateStudent
    rw [hs]
    try dsimp only
    rw [hany]
    try dsimp only
    rw [show (inp.createLogin && s.user = none) = true by simp [hlogin, huser]]
    try dsimp only
    rw [huany]
    exact rfl

/-- Witness for C9 (amended): on the single-student store the user-email
conflict path returns DuplicateKey with the base update already written. -/
theorem updateStudent_duplicate_outcomes_witness :
    updateStudent exDBstud 1 exUpdInput = (.error .duplicateKey,
      writeStudent exDBstud 1 (applyStudentForm exStudent exUpdInput)) :=
  (updateStudent_duplicate_outcomes exDBstud 1 exUpdInput exStudent (by decide)).2
    (by decide) (by decide) (by decide) ⟨exUser, by decide, by decide⟩

end CMS
